import Mathlib

/-!
Shallow embedding of `amqputil/amqputil.go` from science-computing/service-common-golang.

The Go code drives an external AMQP broker through the `ChannelAccessor`
interface.  Every external call (dial, channel open, QueueDeclare, Publish,
Qos, Consume, Cancel, the delivery stream read, json/protojson unmarshal) is
modelled by an oracle value supplied as an argument, indexed by call count
where the code calls the operation in a loop.  The mutable `AmqpContext`
struct becomes a record threaded through each function; the broker-visible
side effects are recorded in an `Action` trace so ordering claims can be
stated.  Go `map` fields become association lists; a Go `nil` channel read
from a map corresponds to a `none` lookup.
-/

namespace AmqpUtil

/-- Go `error` values as they occur in this file: `*amqp.Error` with a
protocol code (`amqp`), `errors.New`/`errors.Errorf` (`simple`), and
`errors.Wrapf` (`wrap`, keeping the formatted message and the inner error). -/
inductive GoErr where
  | amqp (code : Nat) (reason : String)
  | simple (msg : String)
  | wrap (msg : String) (inner : GoErr)
deriving Repr, DecidableEq

/-- `var ErrNoMessage = errors.Errorf("No message found in queue")`. -/
def ErrNoMessage : GoErr := GoErr.simple "No message found in queue"

/-- `amqp.Queue` descriptor; only its presence in the registry matters. -/
structure Queue where
  name : String
deriving Repr, DecidableEq

/-- The zero value `amqp.Queue{}` that a Go multi-assignment stores on a
failed `QueueDeclare`. -/
def zeroQueue : Queue := { name := "" }

/-- `amqp.Delivery`: the code only reads `Body` (`[]byte`, `none` = Go nil). -/
structure Delivery where
  body : Option (List Nat)
deriving Repr, DecidableEq

/-- Broker-visible side effects, recorded in order of occurrence. -/
inductive Action where
  | dial (url : String)
  | chanOpen
  | declare (name : String) (durable autoDelete exclusive noWait : Bool)
  | publish (exchange key : String) (mandatory immediate : Bool)
      (contentType : String) (body : List Nat)
  | qos (prefetchCount prefetchSize : Nat) (global : Bool)
  | consume (queue consumer : String) (autoAck exclusive noLocal noWait : Bool)
  | cancel (consumer : String) (noWait : Bool)
  | sleep (seconds : Nat)
deriving Repr, DecidableEq

/-- The `AmqpContext` struct.  `connClosed` models
`connection.IsClosed()`; `channel` is `none` when the Go channel pointer is
nil; the two maps are association lists. -/
structure AmqpContext where
  err : Option GoErr
  channel : Option Nat
  connClosed : Bool
  amqpConnectionURL : String
  consumerId : String
  queues : List (String × Queue)
  deliveryChannels : List (String × Nat)
deriving Repr, DecidableEq

/-- Go map read `m[k]` (missing key gives the zero value, i.e. `none`). -/
def mapLookup {α : Type} : List (String × α) → String → Option α
  | [], _ => none
  | (k', v) :: rest, k => if k' = k then some v else mapLookup rest k

/-- Go map write `m[k] = v`. -/
def mapInsert {α : Type} : List (String × α) → String → α → List (String × α)
  | [], k, v => [(k, v)]
  | (k', v') :: rest, k, v =>
      if k' = k then (k, v) :: rest else (k', v') :: mapInsert rest k v

/-- `func (amqpContext *AmqpContext) LastError() error`. -/
def LastError (ctx : AmqpContext) : Option GoErr := ctx.err

/-- Wrap message of a failed `QueueDeclare` in `EnsureQueueExists`. -/
def declareErrMsg (q : String) : String :=
  "Cannot declare AMQP queue [" ++ q ++ "]"

/-- Wrap message of a failed `json.Marshal` in `PublishMessage`. -/
def marshalErrMsg (m : String) : String :=
  "Failed to marshall AMQP message [" ++ m ++ "]"

/-- Wrap message of a failed `Publish` in `PublishMessage`. -/
def publishErrMsg (m : String) : String :=
  "Failed to publish AMQP message [" ++ m ++ "]"

/-- Wrap message after the QoS retry loop fails in `registerConsumer`. -/
def qosErrMsg (q c : String) : String :=
  "Failed to set Qos on queue [" ++ q ++ "] for consumerId [" ++ c ++ "]"

/-- Wrap message of a terminal `Consume` failure in `registerConsumer`. -/
def consumeErrMsg (q c : String) : String :=
  "Cannot consume AMQP queue [" ++ q ++ "] for consumerId [" ++ c ++ "]"

/-- `errors.New` message for an empty delivery body in the receive functions. -/
def emptyBodyMsg (c : String) : String :=
  "Failed to get delivery from delivery chan. Body is empty. ConsumerId [" ++ c ++ "]"

/-- `func (amqpContext *AmqpContext) EnsureQueueExists(queueName string) error`.
`declareResult` is the outcome of `channel.QueueDeclare` if it is called.
The Go multi-assignment `queues[queueName], err = QueueDeclare(...)` stores
the returned queue (the zero value on error) in the map in both cases.
Returns (updated context, returned error, broker actions). -/
def EnsureQueueExists (ctx : AmqpContext) (queueName : String)
    (declareResult : Except GoErr Queue) :
    AmqpContext × Option GoErr × List Action :=
  match mapLookup ctx.queues queueName with
  | some _ => (ctx, none, [])
  | none =>
    let act := Action.declare queueName false false false false
    match declareResult with
    | Except.ok q =>
        ({ ctx with queues := mapInsert ctx.queues queueName q, err := none },
         none, [act])
    | Except.error e =>
        let w := GoErr.wrap (declareErrMsg queueName) e
        ({ ctx with queues := mapInsert ctx.queues queueName zeroQueue,
                    err := some w },
         some w, [act])

/-- `func (amqpContext *AmqpContext) PublishMessage(queueName string, message interface{}) error`.
`messageRender` is the `%v` rendering of the message, `marshalResult` the
outcome of `json.Marshal`, `publishResult` the outcome of `channel.Publish`
(`none` = success).  Note the first statement assigns `EnsureQueueExists`'s
return value to the context's error field. -/
def PublishMessage (ctx0 : AmqpContext) (queueName messageRender : String)
    (declareResult : Except GoErr Queue)
    (marshalResult : Except GoErr (List Nat))
    (publishResult : Option GoErr) :
    AmqpContext × Option GoErr × List Action :=
  let r := EnsureQueueExists ctx0 queueName declareResult
  let ctx1 := { r.1 with err := r.2.1 }
  match r.2.1 with
  | some e => (ctx1, some e, r.2.2)
  | none =>
    match marshalResult with
    | Except.error me =>
        let w := GoErr.wrap (marshalErrMsg messageRender) me
        ({ ctx1 with err := some w }, some w, r.2.2)
    | Except.ok body =>
        let act := Action.publish "" queueName false false "application/json" body
        match publishResult with
        | some pe =>
            let w := GoErr.wrap (publishErrMsg messageRender) pe
            ({ ctx1 with err := some w }, some w, r.2.2 ++ [act])
        | none => (ctx1, ctx1.err, r.2.2 ++ [act])

/-- Oracle for one `Reset` call: outcome of `amqp.Dial` (consulted only when
the connection reports itself closed; `none` = success) and of
`connection.Channel()` (the handle of the freshly opened channel, or the
error, in which case the Go channel pointer assigned is nil). -/
structure ResetEnv where
  dialResult : Option GoErr
  chanResult : Except GoErr Nat
deriving Repr

/-- `func (amqpContext *AmqpContext) Reset() error`.
Redial if the connection is closed, open a fresh channel, and only then
reinitialize both registries to empty.  Returns
(updated context, returned error, broker actions). -/
def Reset (ctx0 : AmqpContext) (env : ResetEnv) :
    AmqpContext × Option GoErr × List Action :=
  let step1 : AmqpContext × Option GoErr × List Action :=
    if ctx0.connClosed then
      match env.dialResult with
      | some e =>
          ({ ctx0 with err := some e }, some e, [Action.dial ctx0.amqpConnectionURL])
      | none =>
          ({ ctx0 with connClosed := false, err := none }, none,
           [Action.dial ctx0.amqpConnectionURL])
    else (ctx0, none, [])
  match step1 with
  | (ctx, some e, tr) => (ctx, some e, tr)
  | (ctx, none, tr) =>
    match env.chanResult with
    | Except.error e =>
        ({ ctx with channel := none, err := some e }, some e, tr ++ [Action.chanOpen])
    | Except.ok h =>
        ({ ctx with channel := some h, err := none,
                    queues := [], deliveryChannels := [] },
         none, tr ++ [Action.chanOpen])

/-- `func (helper *AmqpConnectionHelper) GetAmqpContext(consumerId string) *AmqpContext`.
`dialResult` is the outcome of the initial `amqp.Dial` (`none` = success).
On dial failure the function returns Go nil (`none`); on success it calls
`Reset` and discards `Reset`'s return value. -/
def GetAmqpContext (url consumerId : String) (dialResult : Option GoErr)
    (resetEnv : ResetEnv) : Option AmqpContext × List Action :=
  let ctx : AmqpContext :=
    { err := none, channel := none, connClosed := false,
      amqpConnectionURL := url, consumerId := consumerId,
      queues := [], deliveryChannels := [] }
  match dialResult with
  | some _ => (none, [Action.dial url])
  | none =>
    let r := Reset ctx resetEnv
    (some r.1, Action.dial url :: r.2.2)

/-- Oracle for one `registerConsumer` run: the n-th `Qos` call's outcome
(`none` = success), the n-th `Reset` call's oracle, and the n-th `Consume`
call's outcome (the handle of the delivery stream on success). -/
structure RegEnv where
  qosRes : Nat → Option GoErr
  resetEnv : Nat → ResetEnv
  consumeRes : Nat → Except GoErr Nat

/-- Instrumented state threaded through `registerConsumer`: the context,
the number of `Qos` / `Reset` / `Consume` calls made so far, the total
seconds slept, and the trace of broker actions. -/
structure RegState where
  ctx : AmqpContext
  qi : Nat
  ri : Nat
  ci : Nat
  sleeps : Nat
  trace : List Action
deriving Repr, DecidableEq

/-- Fresh instrumentation around a context. -/
def RegState.start (ctx : AmqpContext) : RegState :=
  { ctx := ctx, qi := 0, ri := 0, ci := 0, sleeps := 0, trace := [] }

/-- One `channel.Qos(1, 0, false)` call: the error field receives the
call's outcome. -/
def doQos (env : RegEnv) (s : RegState) : RegState :=
  { s with ctx := { s.ctx with err := env.qosRes s.qi }, qi := s.qi + 1,
           trace := s.trace ++ [Action.qos 1 0 false] }

/-- One `amqpContext.Reset()` call inside `registerConsumer`. -/
def doReset (env : RegEnv) (s : RegState) : RegState :=
  let r := Reset s.ctx (env.resetEnv s.ri)
  { s with ctx := r.1, ri := s.ri + 1, trace := s.trace ++ r.2.2 }

/-- One `time.Sleep(3 * time.Second)` call. -/
def doSleep (s : RegState) : RegState :=
  { s with sleeps := s.sleeps + 3, trace := s.trace ++ [Action.sleep 3] }

/-- The QoS retry loop
`for amqpContext.err != nil && retries < 10 { retries++; sleep 3s; Reset(); if err != nil { continue }; err = Qos(1,0,false) }`.
`fuel` is the remaining retry budget `10 - retries`, initially 10. -/
def qosLoop (env : RegEnv) : Nat → RegState → RegState
  | 0, s => s
  | Nat.succ fuel, s =>
    if s.ctx.err = none then s
    else
      let s1 := doReset env (doSleep s)
      if s1.ctx.err = none then qosLoop env fuel (doQos env s1)
      else qosLoop env fuel s1

/-- `notFoundError, ok := err.(*amqp.Error); ok && notFoundError.Code == 404`. -/
def is404 : GoErr → Bool
  | GoErr.amqp code _ => code == 404
  | _ => false

/-- The `Consume` loop of `registerConsumer`: call `Consume`; on a 404
error with retries left (`retries < 10` in the source), `Reset()` then
sleep 3s and retry; on any other error, or on a 404 with the budget
exhausted, wrap with queue name and consumer identity and stop; on success
clear the error and return the stream handle.  `fuel` is the remaining
retry budget `10 - retries`, initially 10, so the budget is exhausted
exactly when `fuel = 0`. -/
def consumeLoop (env : RegEnv) (queueName : String) :
    Nat → RegState → RegState × Option Nat
  | 0, s =>
    let s1 := { s with
                ci := s.ci + 1,
                trace := s.trace ++
                  [Action.consume queueName s.ctx.consumerId false false false false] }
    match env.consumeRes s.ci with
    | Except.ok h => ({ s1 with ctx := { s1.ctx with err := none } }, some h)
    | Except.error e =>
        ({ s1 with ctx := { s1.ctx with
            err := some (GoErr.wrap (consumeErrMsg queueName s1.ctx.consumerId) e) } },
         none)
  | Nat.succ f, s =>
    let s1 := { s with
                ci := s.ci + 1,
                trace := s.trace ++
                  [Action.consume queueName s.ctx.consumerId false false false false] }
    match env.consumeRes s.ci with
    | Except.ok h => ({ s1 with ctx := { s1.ctx with err := none } }, some h)
    | Except.error e =>
        if is404 e then
          consumeLoop env queueName f
            (doSleep (doReset env { s1 with ctx := { s1.ctx with err := some e } }))
        else
          ({ s1 with ctx := { s1.ctx with
              err := some (GoErr.wrap (consumeErrMsg queueName s1.ctx.consumerId) e) } },
           none)

/-- `func (amqpContext *AmqpContext) registerConsumer(queueName string)`.
QoS with retry loop, wrap on exhaustion; then the Consume loop; on success
the delivery stream handle is stored in the Delivery Registry. -/
def registerConsumer (env : RegEnv) (ctx : AmqpContext) (queueName : String) :
    RegState :=
  let s1 := qosLoop env 10 (doQos env (RegState.start ctx))
  match s1.ctx.err with
  | some e =>
      { s1 with ctx := { s1.ctx with
          err := some (GoErr.wrap (qosErrMsg queueName s1.ctx.consumerId) e) } }
  | none =>
    let r := consumeLoop env queueName 10 s1
    match r.2 with
    | some h =>
        { r.1 with ctx := { r.1.ctx with
            deliveryChannels := mapInsert r.1.ctx.deliveryChannels queueName h } }
    | none => r.1

/-- Outcome of the `select` in the receive functions: the 10-second timer
fires first, the stream read reports not-ok (closed), or a delivery
arrives with the given body. -/
inductive StreamEvent where
  | timeout
  | closed
  | delivery (body : Option (List Nat))
deriving Repr, DecidableEq

/-- Oracle for one receive call: the registration oracle (used only when no
stream is cached), the `select` outcome, and the unmarshal outcome
(`none` = success) for the decoding step. -/
structure RecvEnv where
  regEnv : RegEnv
  event : StreamEvent
  unmarshalRes : Option GoErr

/-- Result of one receive call: final context, returned `*amqp.Delivery`
(`none` = Go nil), returned error, whether `registerConsumer` was invoked
during this call, and the broker actions of this call. -/
structure RecvResult where
  ctx : AmqpContext
  delivery : Option Delivery
  retErr : Option GoErr
  registered : Bool
  trace : List Action
deriving Repr, DecidableEq

/-- `func (amqpContext *AmqpContext) ReceiveMessage(queueName string, message interface{}) (*amqp.Delivery, error)`.
If no delivery stream is cached for the queue, register a consumer and
return its error on failure.  Then race the stream against the 10-second
timer: on timeout record `ErrNoMessage`, cancel the consumer and return
nil; on an empty body record and return an error naming the consumer
identity; on a closed stream cancel the consumer and return the current
error state; otherwise `json.Unmarshal` the body (outcome
`env.unmarshalRes`) and return the delivery together with that outcome. -/
def ReceiveMessage (env : RecvEnv) (ctx0 : AmqpContext) (queueName : String) :
    RecvResult :=
  let reg : RegState × Bool :=
    match mapLookup ctx0.deliveryChannels queueName with
    | none => (registerConsumer env.regEnv ctx0 queueName, true)
    | some _ => (RegState.start ctx0, false)
  if reg.2 && reg.1.ctx.err.isSome then
    { ctx := reg.1.ctx, delivery := none, retErr := reg.1.ctx.err,
      registered := reg.2, trace := reg.1.trace }
  else
    let s := reg.1
    match env.event with
    | StreamEvent.timeout =>
        { ctx := { s.ctx with err := some ErrNoMessage }, delivery := none,
          retErr := some ErrNoMessage, registered := reg.2,
          trace := s.trace ++ [Action.cancel s.ctx.consumerId false] }
    | StreamEvent.delivery body =>
        if body = none ∨ body = some [] then
          let e := GoErr.simple (emptyBodyMsg s.ctx.consumerId)
          { ctx := { s.ctx with err := some e }, delivery := none,
            retErr := some e, registered := reg.2, trace := s.trace }
        else
          { ctx := { s.ctx with err := env.unmarshalRes },
            delivery := some { body := body }, retErr := env.unmarshalRes,
            registered := reg.2, trace := s.trace }
    | StreamEvent.closed =>
        { ctx := s.ctx, delivery := none, retErr := s.ctx.err,
          registered := reg.2,
          trace := s.trace ++ [Action.cancel s.ctx.consumerId false] }

/-- `func (amqpContext *AmqpContext) ReceiveProtoMessage(queueName string, message proto.Message) (*amqp.Delivery, error)`.
A line-for-line copy of `ReceiveMessage` in the Go source, differing only
in applying `protojson.Unmarshal` instead of `json.Unmarshal` to the body;
the decoding outcome is again the oracle `env.unmarshalRes`. -/
def ReceiveProtoMessage (env : RecvEnv) (ctx0 : AmqpContext) (queueName : String) :
    RecvResult :=
  let reg : RegState × Bool :=
    match mapLookup ctx0.deliveryChannels queueName with
    | none => (registerConsumer env.regEnv ctx0 queueName, true)
    | some _ => (RegState.start ctx0, false)
  if reg.2 && reg.1.ctx.err.isSome then
    { ctx := reg.1.ctx, delivery := none, retErr := reg.1.ctx.err,
      registered := reg.2, trace := reg.1.trace }
  else
    let s := reg.1
    match env.event with
    | StreamEvent.timeout =>
        { ctx := { s.ctx with err := some ErrNoMessage }, delivery := none,
          retErr := some ErrNoMessage, registered := reg.2,
          trace := s.trace ++ [Action.cancel s.ctx.consumerId false] }
    | StreamEvent.delivery body =>
        if body = none ∨ body = some [] then
          let e := GoErr.simple (emptyBodyMsg s.ctx.consumerId)
          { ctx := { s.ctx with err := some e }, delivery := none,
            retErr := some e, registered := reg.2, trace := s.trace }
        else
          { ctx := { s.ctx with err := env.unmarshalRes },
            delivery := some { body := body }, retErr := env.unmarshalRes,
            registered := reg.2, trace := s.trace }
    | StreamEvent.closed =>
        { ctx := s.ctx, delivery := none, retErr := s.ctx.err,
          registered := reg.2,
          trace := s.trace ++ [Action.cancel s.ctx.consumerId false] }

/-! Concrete oracle environments used to exercise the retry loops. -/

/-- A `ResetEnv` for a healthy broker: no redial needed to succeed, channel
open yields handle `ch`. -/
def healthyReset (ch : Nat) : ResetEnv :=
  { dialResult := none, chanResult := Except.ok ch }

/-- Broker where QoS succeeds and every `Consume` reports protocol error 404. -/
def always404Env (reason : String) (ch : Nat) : RegEnv :=
  { qosRes := fun _ => none,
    resetEnv := fun _ => healthyReset ch,
    consumeRes := fun _ => Except.error (GoErr.amqp 404 reason) }

/-- Broker where the first `Consume` reports 404 and the second succeeds
with stream handle `h`. -/
def notFoundOnceEnv (reason : String) (ch h : Nat) : RegEnv :=
  { qosRes := fun _ => none,
    resetEnv := fun _ => healthyReset ch,
    consumeRes := fun n => if n = 0 then Except.error (GoErr.amqp 404 reason)
                           else Except.ok h }

/-- Broker where QoS succeeds and `Consume` fails with an arbitrary error. -/
def consumeErrEnv (e : GoErr) : RegEnv :=
  { qosRes := fun _ => none,
    resetEnv := fun _ => healthyReset 2,
    consumeRes := fun _ => Except.error e }

/-- Broker where the first QoS call fails with `e`, later ones succeed, and
the first `Consume` succeeds with stream handle `h`. -/
def qosFailOnceEnv (e : GoErr) (ch h : Nat) : RegEnv :=
  { qosRes := fun n => if n = 0 then some e else none,
    resetEnv := fun _ => healthyReset ch,
    consumeRes := fun _ => Except.ok h }

/-- Broker where every QoS call fails with `e` and resets succeed. -/
def qosAlwaysFailEnv (e : GoErr) (ch : Nat) : RegEnv :=
  { qosRes := fun _ => some e,
    resetEnv := fun _ => healthyReset ch,
    consumeRes := fun _ => Except.ok 0 }

/-- A healthy registration oracle: QoS and `Consume` succeed immediately. -/
def regEnvOk : RegEnv :=
  { qosRes := fun _ => none,
    resetEnv := fun _ => healthyReset 2,
    consumeRes := fun _ => Except.ok 5 }

/-- A context right after a successful `GetAmqpContext`, with no cached
queues or streams. -/
def ctxA : AmqpContext :=
  { err := none, channel := some 1, connClosed := false,
    amqpConnectionURL := "amqp://broker", consumerId := "worker-1",
    queues := [], deliveryChannels := [] }

/-- `ctxA` with the queue `jobs` cached and a previously recorded error. -/
def ctxCached : AmqpContext :=
  { ctxA with queues := [("jobs", { name := "jobs" })],
              err := some (GoErr.simple "previous failure") }

/-- `ctxA` with a cached delivery stream (handle 7) for queue `jobs`. -/
def ctxStream : AmqpContext :=
  { ctxA with deliveryChannels := [("jobs", 7)] }

/-- A receive oracle that finds the cached stream closed. -/
def closedEnv : RecvEnv :=
  { regEnv := regEnvOk, event := StreamEvent.closed, unmarshalRes := none }

/-- A receive oracle where the 10-second timer fires first. -/
def timeoutEnv : RecvEnv :=
  { regEnv := regEnvOk, event := StreamEvent.timeout, unmarshalRes := none }

/-- A receive oracle that yields a delivery with a zero-length body. -/
def emptyBodyEnv : RecvEnv :=
  { regEnv := regEnvOk, event := StreamEvent.delivery (some []),
    unmarshalRes := none }

/-- A receive oracle that yields a non-empty body which fails to decode. -/
def badJsonEnv : RecvEnv :=
  { regEnv := regEnvOk, event := StreamEvent.delivery (some [5]),
    unmarshalRes := some (GoErr.simple "invalid character") }

/-- A `Reset` oracle whose channel open fails. -/
def resetFailEnv : ResetEnv :=
  { dialResult := none, chanResult := Except.error (GoErr.simple "open failed") }

/-! Helper lemmas: projections of the instrumentation steps, the behaviour
of `Reset` against a healthy broker, and closed-form runs of the two retry
loops of `registerConsumer`. -/

/-- Inserting under a key makes it visible to lookup. -/
theorem mapLookup_mapInsert_self {α : Type} (m : List (String × α)) (k : String) (v : α) :
    mapLookup (mapInsert m k v) k = some v := by
  induction m with
  | nil => simp [mapInsert, mapLookup]
  | cons kv rest ih =>
    cases kv with
    | mk k' v' =>
      by_cases h : k' = k <;> simp [mapInsert, mapLookup, h, ih]

/-- `doSleep` leaves the context untouched. -/
theorem doSleep_ctx (s : RegState) : (doSleep s).ctx = s.ctx := rfl

/-- `doSleep` leaves the consume counter untouched. -/
theorem doSleep_ci (s : RegState) : (doSleep s).ci = s.ci := rfl

/-- `doSleep` leaves the reset counter untouched. -/
theorem doSleep_ri (s : RegState) : (doSleep s).ri = s.ri := rfl

/-- `doSleep` leaves the QoS counter untouched. -/
theorem doSleep_qi (s : RegState) : (doSleep s).qi = s.qi := rfl

/-- `doSleep` adds three seconds of sleep. -/
theorem doSleep_sleeps (s : RegState) : (doSleep s).sleeps = s.sleeps + 3 := rfl

/-- `doReset` transforms the context through `Reset`. -/
theorem doReset_ctx (env : RegEnv) (s : RegState) :
    (doReset env s).ctx = (Reset s.ctx (env.resetEnv s.ri)).1 := rfl

/-- `doReset` leaves the consume counter untouched. -/
theorem doReset_ci (env : RegEnv) (s : RegState) : (doReset env s).ci = s.ci := rfl

/-- `doReset` increments the reset counter. -/
theorem doReset_ri (env : RegEnv) (s : RegState) : (doReset env s).ri = s.ri + 1 := rfl

/-- `doReset` leaves the QoS counter untouched. -/
theorem doReset_qi (env : RegEnv) (s : RegState) : (doReset env s).qi = s.qi := rfl

/-- `doReset` does not sleep. -/
theorem doReset_sleeps (env : RegEnv) (s : RegState) : (doReset env s).sleeps = s.sleeps := rfl

/-- `doQos` stores the call's outcome in the error field. -/
theorem doQos_ctx_err (env : RegEnv) (s : RegState) :
    (doQos env s).ctx.err = env.qosRes s.qi := rfl

/-- `doQos` increments the QoS counter. -/
theorem doQos_qi (env : RegEnv) (s : RegState) : (doQos env s).qi = s.qi + 1 := rfl

/-- `doQos` leaves the reset counter untouched. -/
theorem doQos_ri (env : RegEnv) (s : RegState) : (doQos env s).ri = s.ri := rfl

/-- `doQos` leaves the consume counter untouched. -/
theorem doQos_ci (env : RegEnv) (s : RegState) : (doQos env s).ci = s.ci := rfl

/-- `doQos` does not sleep. -/
theorem doQos_sleeps (env : RegEnv) (s : RegState) : (doQos env s).sleeps = s.sleeps := rfl

/-- Against a healthy broker, `Reset` of an open connection opens channel
`ch`, clears the error and empties both registries. -/
theorem Reset_healthy (ctx : AmqpContext) (ch : Nat) (h : ctx.connClosed = false) :
    Reset ctx (healthyReset ch) =
      ({ ctx with channel := some ch, err := none,
                  queues := [], deliveryChannels := [] },
       none, [Action.chanOpen]) := by
  simp [Reset, healthyReset, h]

/-- Closed-form run of the `Consume` loop when every attempt reports 404
and every reset succeeds: the remaining budget `fuel` is spent entirely,
one reset and one 3-second sleep per retry, one more consume call than
retries, ending in the wrapped terminal error. -/
theorem consumeLoop_404_run (env : RegEnv) (q reason : String) (ch : Nat)
    (hc : ∀ n, env.consumeRes n = Except.error (GoErr.amqp 404 reason))
    (hr : ∀ n, env.resetEnv n = healthyReset ch) :
    ∀ fuel s, s.ctx.connClosed = false →
      (consumeLoop env q fuel s).2 = none ∧
      (consumeLoop env q fuel s).1.ci = s.ci + fuel + 1 ∧
      (consumeLoop env q fuel s).1.ri = s.ri + fuel ∧
      (consumeLoop env q fuel s).1.sleeps = s.sleeps + 3 * fuel ∧
      (consumeLoop env q fuel s).1.qi = s.qi ∧
      (consumeLoop env q fuel s).1.ctx.err =
        some (GoErr.wrap (consumeErrMsg q s.ctx.consumerId) (GoErr.amqp 404 reason)) := by
  intro fuel
  induction fuel with
  | zero =>
    intro s hcc
    simp [consumeLoop, hc]
  | succ f ih =>
    intro s hcc
    have h404 : is404 (GoErr.amqp 404 reason) = true := by simp [is404]
    have hstep := ih (doSleep (doReset env { { s with
                ci := s.ci + 1,
                trace := s.trace ++
                  [Action.consume q s.ctx.consumerId false false false false] } with
                ctx := { s.ctx with err := some (GoErr.amqp 404 reason) } }))
    simp [consumeLoop, hc, h404, hcc] at hstep ⊢
    simp [doSleep_ctx, doReset_ctx, hr, Reset_healthy, hcc, doSleep_ci, doReset_ci,
          doSleep_ri, doReset_ri, doSleep_sleeps, doReset_sleeps, doSleep_qi, doReset_qi] at hstep
    refine ⟨hstep.1, ?_, ?_, ?_, ?_, ?_⟩
    · rw [hstep.2.1]; omega
    · rw [hstep.2.2.1]; omega
    · rw [hstep.2.2.2.1]; omega
    · rw [hstep.2.2.2.2.1]
    · rw [hstep.2.2.2.2.2]

/-- Closed-form run of the QoS retry loop when every QoS attempt fails with
`e` and every reset succeeds: each budgeted retry costs one 3-second sleep,
one reset and one further QoS call, and the error survives the loop. -/
theorem qosLoop_allFail_run (env : RegEnv) (e : GoErr) (ch : Nat)
    (hq : ∀ n, env.qosRes n = some e)
    (hr : ∀ n, env.resetEnv n = healthyReset ch) :
    ∀ fuel s, s.ctx.connClosed = false → s.ctx.err = some e →
      (qosLoop env fuel s).qi = s.qi + fuel ∧
      (qosLoop env fuel s).ri = s.ri + fuel ∧
      (qosLoop env fuel s).sleeps = s.sleeps + 3 * fuel ∧
      (qosLoop env fuel s).ci = s.ci ∧
      (qosLoop env fuel s).ctx.err = some e ∧
      (qosLoop env fuel s).ctx.consumerId = s.ctx.consumerId := by
  intro fuel
  induction fuel with
  | zero => intro s hcc herr; simp [qosLoop, herr]
  | succ f ih =>
    intro s hcc herr
    have hstep := ih (doQos env (doReset env (doSleep s)))
    simp [qosLoop, herr, hcc, doSleep_ctx, doReset_ctx, hr, Reset_healthy, hq,
          doQos_ctx_err, doQos_qi, doQos_ri, doQos_ci, doQos_sleeps,
          doSleep_ci, doReset_ci, doSleep_ri, doReset_ri, doSleep_sleeps,
          doReset_sleeps, doSleep_qi, doReset_qi, doQos] at hstep ⊢
    refine ⟨?_, ?_, ?_, ?_, ?_, ?_⟩
    · rw [hstep.1]; omega
    · rw [hstep.2.1]; omega
    · rw [hstep.2.2.1]; omega
    · rw [hstep.2.2.2.1]
    · rw [hstep.2.2.2.2.1]
    · rw [hstep.2.2.2.2.2]

/-- `registerConsumer` against a broker that always reports 404 on
`Consume`: eleven consume calls, ten resets, thirty seconds of sleep, and
the wrapped terminal error naming queue and consumer. -/
theorem registerConsumer_always404_run (ctx : AmqpContext) (q reason : String) (ch : Nat)
    (hcc : ctx.connClosed = false) :
    (registerConsumer (always404Env reason ch) ctx q).ci = 11 ∧
    (registerConsumer (always404Env reason ch) ctx q).ri = 10 ∧
    (registerConsumer (always404Env reason ch) ctx q).sleeps = 30 ∧
    (registerConsumer (always404Env reason ch) ctx q).ctx.err =
      some (GoErr.wrap (consumeErrMsg q ctx.consumerId) (GoErr.amqp 404 reason)) := by
  have hS : (doQos (always404Env reason ch) (RegState.start ctx)).ctx.connClosed = false := by
    simp [doQos, RegState.start, hcc]
  have hrun := consumeLoop_404_run (always404Env reason ch) q reason ch
    (fun _ => rfl) (fun _ => rfl) 10 (doQos (always404Env reason ch) (RegState.start ctx)) hS
  have hq0 : qosLoop (always404Env reason ch) 10
      (doQos (always404Env reason ch) (RegState.start ctx)) =
      doQos (always404Env reason ch) (RegState.start ctx) := by
    simp [qosLoop, doQos_ctx_err, always404Env]
  have hnone : (doQos (always404Env reason ch) (RegState.start ctx)).ctx.err = none := by
    simp [doQos, RegState.start, always404Env]
  unfold registerConsumer
  rw [hq0]
  simp only [hnone, hrun.1]
  refine ⟨?_, ?_, ?_, ?_⟩
  · rw [hrun.2.1]; simp [doQos_ci, RegState.start]
  · rw [hrun.2.2.1]; simp [doQos_ri, RegState.start]
  · rw [hrun.2.2.2.1]; simp [doQos_sleeps, RegState.start]
  · rw [hrun.2.2.2.2.2]; simp [doQos, RegState.start]

/-- `registerConsumer` against a broker whose QoS always fails: eleven QoS
calls, ten resets, thirty seconds of sleep, no consume call, and the
wrapped terminal error naming queue and consumer. -/
theorem registerConsumer_qosExhaust_run (ctx : AmqpContext) (q : String) (e : GoErr) (ch : Nat)
    (hcc : ctx.connClosed = false) :
    (registerConsumer (qosAlwaysFailEnv e ch) ctx q).qi = 11 ∧
    (registerConsumer (qosAlwaysFailEnv e ch) ctx q).ri = 10 ∧
    (registerConsumer (qosAlwaysFailEnv e ch) ctx q).sleeps = 30 ∧
    (registerConsumer (qosAlwaysFailEnv e ch) ctx q).ci = 0 ∧
    (registerConsumer (qosAlwaysFailEnv e ch) ctx q).ctx.err =
      some (GoErr.wrap (qosErrMsg q ctx.consumerId) e) := by
  have hS1 : (doQos (qosAlwaysFailEnv e ch) (RegState.start ctx)).ctx.connClosed = false := by
    simp [doQos, RegState.start, hcc]
  have hS2 : (doQos (qosAlwaysFailEnv e ch) (RegState.start ctx)).ctx.err = some e := by
    simp [doQos, RegState.start, qosAlwaysFailEnv]
  have hrun := qosLoop_allFail_run (qosAlwaysFailEnv e ch) e ch
    (fun _ => rfl) (fun _ => rfl) 10 (doQos (qosAlwaysFailEnv e ch) (RegState.start ctx)) hS1 hS2
  unfold registerConsumer
  simp only [hrun.2.2.2.2.1]
  refine ⟨?_, ?_, ?_, ?_, ?_⟩
  · rw [hrun.1]; simp [doQos_qi, RegState.start]
  · rw [hrun.2.1]; simp [doQos_ri, RegState.start]
  · rw [hrun.2.2.1]; simp [doQos_sleeps, RegState.start]
  · rw [hrun.2.2.2.1]; simp [doQos_ci, RegState.start]
  · rw [hrun.2.2.2.2.2]; simp [doQos, RegState.start]

/-- When a delivery stream is cached for the queue, a receive never invokes
`registerConsumer`, whatever the broker does during that call. -/
theorem receive_cached_not_registered (env2 : RecvEnv) (ctx : AmqpContext)
    (q : String) (d : Nat)
    (hd : mapLookup ctx.deliveryChannels q = some d) :
    (ReceiveMessage env2 ctx q).registered = false := by
  rcases henv : env2.event with _ | _ | body
  · simp [ReceiveMessage, hd, henv, RegState.start]
  · simp [ReceiveMessage, hd, henv, RegState.start]
  · simp [ReceiveMessage, hd, henv, RegState.start]
    split <;> simp

/-! Claim theorems. -/

/-- Claim C1, corrected.  For a queue name not present in the Queue
Registry whose declare call fails, the returned error and the context's
last error are the declare error wrapped with the queue name; but contrary
to the claim's final clause the registry is modified: the Go
multi-assignment `queues[queueName], err = QueueDeclare(...)` inserts the
zero-value queue descriptor under that name. -/
theorem ensureQueueExists_declare_failure_wraps_and_inserts
    (ctx : AmqpContext) (q : String) (e : GoErr)
    (h : mapLookup ctx.queues q = none) :
    (EnsureQueueExists ctx q (Except.error e)).2.1 =
      some (GoErr.wrap (declareErrMsg q) e) ∧
    (EnsureQueueExists ctx q (Except.error e)).1.err =
      some (GoErr.wrap (declareErrMsg q) e) ∧
    (EnsureQueueExists ctx q (Except.error e)).1.queues =
      mapInsert ctx.queues q zeroQueue ∧
    mapLookup (EnsureQueueExists ctx q (Except.error e)).1.queues q = some zeroQueue := by
  simp [EnsureQueueExists, h, mapLookup_mapInsert_self]

/-- Claim C1 witness: the amended behaviour evaluated on a fresh context. -/
theorem ensureQueueExists_declare_failure_witness :
    (EnsureQueueExists ctxA "jobs" (Except.error (GoErr.simple "boom"))).2.1 =
      some (GoErr.wrap (declareErrMsg "jobs") (GoErr.simple "boom")) ∧
    (EnsureQueueExists ctxA "jobs" (Except.error (GoErr.simple "boom"))).1.err =
      some (GoErr.wrap (declareErrMsg "jobs") (GoErr.simple "boom")) ∧
    (EnsureQueueExists ctxA "jobs" (Except.error (GoErr.simple "boom"))).1.queues =
      mapInsert ctxA.queues "jobs" zeroQueue ∧
    mapLookup (EnsureQueueExists ctxA "jobs" (Except.error (GoErr.simple "boom"))).1.queues "jobs"
      = some zeroQueue :=
  ensureQueueExists_declare_failure_wraps_and_inserts ctxA "jobs" (GoErr.simple "boom") (by decide)

/-- Claim C1 counterexample: on a fresh context with an empty Queue
Registry, a failed declare leaves the registry changed, refuting the
claim's assertion that it is left unmodified. -/
theorem ensureQueueExists_registry_unmodified_cex :
    ¬ ((EnsureQueueExists ctxA "jobs" (Except.error (GoErr.simple "boom"))).1.queues
        = ctxA.queues) := by decide

/-- Claim C2, corrected.  When a receive finds the cached delivery stream
closed, it cancels the consumer under the context's consumer identity,
does not invoke registration within that call, returns the context's last
error state, and leaves the whole context (the Delivery Registry entry
included) unchanged; but contrary to the claim's final clause a subsequent
receive on the same queue does not re-register the consumer: the entry is
still present, so registration is skipped and the defunct stream is read
again. -/
theorem receiveMessage_closed_stream_no_reregister
    (env : RecvEnv) (ctx : AmqpContext) (q : String) (d : Nat)
    (hd : mapLookup ctx.deliveryChannels q = some d)
    (hev : env.event = StreamEvent.closed) :
    ReceiveMessage env ctx q =
      { ctx := ctx, delivery := none, retErr := ctx.err, registered := false,
        trace := [Action.cancel ctx.consumerId false] } ∧
    (∀ env2, (ReceiveMessage env2 ctx q).registered = false) := by
  refine ⟨?_, ?_⟩
  · simp [ReceiveMessage, hd, hev, RegState.start]
  · intro env2
    exact receive_cached_not_registered env2 ctx q d hd

/-- Claim C2 witness: the closed-stream behaviour evaluated on a context
with a cached stream for queue `jobs`, followed by a second receive. -/
theorem receiveMessage_closed_stream_witness :
    ReceiveMessage closedEnv ctxStream "jobs" =
      { ctx := ctxStream, delivery := none, retErr := ctxStream.err,
        registered := false,
        trace := [Action.cancel ctxStream.consumerId false] } ∧
    (ReceiveMessage timeoutEnv ctxStream "jobs").registered = false :=
  ⟨(receiveMessage_closed_stream_no_reregister closedEnv ctxStream "jobs" 7 (by decide) rfl).1,
   (receiveMessage_closed_stream_no_reregister closedEnv ctxStream "jobs" 7 (by decide) rfl).2
     timeoutEnv⟩

/-- Claim C2 counterexample: after a closed-stream receive the registry
entry is still present, and the subsequent receive on the same queue does
not re-register the consumer, refuting the claim's final clause. -/
theorem receiveMessage_closed_reregister_cex :
    (ReceiveMessage closedEnv ctxStream "jobs").ctx.deliveryChannels = [("jobs", 7)] ∧
    (ReceiveMessage closedEnv (ReceiveMessage closedEnv ctxStream "jobs").ctx "jobs").registered
      = false := by decide

/-- Claim C3, confirmed.  First conjunct: a 404 on `Consume` with budget
left triggers a channel reopen through `Reset` and a 3-second backoff
before the retried consume, visible in the counters and the action order.
Second conjunct: a queue that never becomes visible exhausts the retry
budget of 10 (eleven consume calls, ten resets, thirty seconds of backoff)
before the terminal error wrapped with queue name and consumer identity.
Third conjunct: any consume error other than code 404 is terminal
immediately, with no reset and no sleep. -/
theorem registerConsumer_notFound_retry_policy :
    (∀ (ctx : AmqpContext) (q reason : String) (ch h : Nat), ctx.connClosed = false →
      (registerConsumer (notFoundOnceEnv reason ch h) ctx q).ci = 2 ∧
      (registerConsumer (notFoundOnceEnv reason ch h) ctx q).ri = 1 ∧
      (registerConsumer (notFoundOnceEnv reason ch h) ctx q).sleeps = 3 ∧
      (registerConsumer (notFoundOnceEnv reason ch h) ctx q).ctx.err = none ∧
      mapLookup (registerConsumer (notFoundOnceEnv reason ch h) ctx q).ctx.deliveryChannels q
        = some h ∧
      (registerConsumer (notFoundOnceEnv reason ch h) ctx q).trace =
        [Action.qos 1 0 false,
         Action.consume q ctx.consumerId false false false false,
         Action.chanOpen, Action.sleep 3,
         Action.consume q ctx.consumerId false false false false]) ∧
    (∀ (ctx : AmqpContext) (q reason : String) (ch : Nat), ctx.connClosed = false →
      (registerConsumer (always404Env reason ch) ctx q).ci = 11 ∧
      (registerConsumer (always404Env reason ch) ctx q).ri = 10 ∧
      (registerConsumer (always404Env reason ch) ctx q).sleeps = 30 ∧
      (registerConsumer (always404Env reason ch) ctx q).ctx.err =
        some (GoErr.wrap (consumeErrMsg q ctx.consumerId) (GoErr.amqp 404 reason))) ∧
    (∀ (ctx : AmqpContext) (q : String) (e : GoErr), is404 e = false →
      (registerConsumer (consumeErrEnv e) ctx q).ci = 1 ∧
      (registerConsumer (consumeErrEnv e) ctx q).ri = 0 ∧
      (registerConsumer (consumeErrEnv e) ctx q).sleeps = 0 ∧
      (registerConsumer (consumeErrEnv e) ctx q).ctx.err =
        some (GoErr.wrap (consumeErrMsg q ctx.consumerId) e)) := by
  refine ⟨?_, ?_, ?_⟩
  · intro ctx q reason ch h hcc
    simp [registerConsumer, qosLoop, consumeLoop, doQos, doReset, doSleep, Reset,
          RegState.start, notFoundOnceEnv, healthyReset, is404, mapInsert, mapLookup, hcc]
  · intro ctx q reason ch hcc
    exact registerConsumer_always404_run ctx q reason ch hcc
  · intro ctx q e hne
    simp [registerConsumer, qosLoop, consumeLoop, doQos, doReset, doSleep, Reset,
          RegState.start, consumeErrEnv, healthyReset, hne, mapInsert, mapLookup]

/-- Claim C3 witness: the three retry scenarios evaluated on a fresh
context and queue `jobs`. -/
theorem registerConsumer_notFound_retry_witness :
    ((registerConsumer (notFoundOnceEnv "nf" 2 5) ctxA "jobs").ci = 2 ∧
     (registerConsumer (notFoundOnceEnv "nf" 2 5) ctxA "jobs").ri = 1 ∧
     (registerConsumer (notFoundOnceEnv "nf" 2 5) ctxA "jobs").sleeps = 3 ∧
     (registerConsumer (notFoundOnceEnv "nf" 2 5) ctxA "jobs").ctx.err = none ∧
     mapLookup (registerConsumer (notFoundOnceEnv "nf" 2 5) ctxA "jobs").ctx.deliveryChannels
       "jobs" = some 5 ∧
     (registerConsumer (notFoundOnceEnv "nf" 2 5) ctxA "jobs").trace =
       [Action.qos 1 0 false,
        Action.consume "jobs" ctxA.consumerId false false false false,
        Action.chanOpen, Action.sleep 3,
        Action.consume "jobs" ctxA.consumerId false false false false]) ∧
    ((registerConsumer (always404Env "nf" 2) ctxA "jobs").ci = 11 ∧
     (registerConsumer (always404Env "nf" 2) ctxA "jobs").ri = 10 ∧
     (registerConsumer (always404Env "nf" 2) ctxA "jobs").sleeps = 30 ∧
     (registerConsumer (always404Env "nf" 2) ctxA "jobs").ctx.err =
       some (GoErr.wrap (consumeErrMsg "jobs" ctxA.consumerId) (GoErr.amqp 404 "nf"))) ∧
    ((registerConsumer (consumeErrEnv (GoErr.simple "denied")) ctxA "jobs").ci = 1 ∧
     (registerConsumer (consumeErrEnv (GoErr.simple "denied")) ctxA "jobs").ri = 0 ∧
     (registerConsumer (consumeErrEnv (GoErr.simple "denied")) ctxA "jobs").sleeps = 0 ∧
     (registerConsumer (consumeErrEnv (GoErr.simple "denied")) ctxA "jobs").ctx.err =
       some (GoErr.wrap (consumeErrMsg "jobs" ctxA.consumerId) (GoErr.simple "denied"))) :=
  ⟨registerConsumer_notFound_retry_policy.1 ctxA "jobs" "nf" 2 5 rfl,
   registerConsumer_notFound_retry_policy.2.1 ctxA "jobs" "nf" 2 rfl,
   registerConsumer_notFound_retry_policy.2.2 ctxA "jobs" (GoErr.simple "denied") rfl⟩

/-- Claim C4, corrected.  When the 10-second timer fires first, the
receive records `ErrNoMessage` as the last error, cancels the consumer
under the consumer identity, and returns a nil delivery with that outcome;
but contrary to the claim's final clause the Delivery Registry entry
remains, so a subsequent receive on the same queue does not re-register
the consumer and instead reads the canceled stream again. -/
theorem receiveMessage_timeout_cancels_no_reregister
    (env : RecvEnv) (ctx : AmqpContext) (q : String) (d : Nat)
    (hd : mapLookup ctx.deliveryChannels q = some d)
    (hev : env.event = StreamEvent.timeout) :
    ReceiveMessage env ctx q =
      { ctx := { ctx with err := some ErrNoMessage }, delivery := none,
        retErr := some ErrNoMessage, registered := false,
        trace := [Action.cancel ctx.consumerId false] } ∧
    (∀ env2, (ReceiveMessage env2 { ctx with err := some ErrNoMessage } q).registered
        = false) := by
  refine ⟨?_, ?_⟩
  · simp [ReceiveMessage, hd, hev, RegState.start]
  · intro env2
    exact receive_cached_not_registered env2 { ctx with err := some ErrNoMessage } q d hd

/-- Claim C4 witness: the timeout behaviour evaluated on a context with a
cached stream for queue `jobs`, followed by a second receive. -/
theorem receiveMessage_timeout_witness :
    ReceiveMessage timeoutEnv ctxStream "jobs" =
      { ctx := { ctxStream with err := some ErrNoMessage }, delivery := none,
        retErr := some ErrNoMessage, registered := false,
        trace := [Action.cancel ctxStream.consumerId false] } ∧
    (ReceiveMessage closedEnv { ctxStream with err := some ErrNoMessage } "jobs").registered
      = false :=
  ⟨(receiveMessage_timeout_cancels_no_reregister timeoutEnv ctxStream "jobs" 7
      (by decide) rfl).1,
   (receiveMessage_timeout_cancels_no_reregister timeoutEnv ctxStream "jobs" 7
      (by decide) rfl).2 closedEnv⟩

/-- Claim C4 counterexample: after a timed-out receive the subsequent
receive on the same queue does not re-register the consumer, refuting
the claim's final clause. -/
theorem receiveMessage_timeout_reregister_cex :
    (ReceiveMessage timeoutEnv ctxStream "jobs").retErr = some ErrNoMessage ∧
    (ReceiveMessage timeoutEnv (ReceiveMessage timeoutEnv ctxStream "jobs").ctx "jobs").registered
      = false := by decide

/-- Claim C5, corrected.  A marshal failure or a publish failure is
wrapped with the payload content and recorded as the context's last error;
but contrary to the claim's final clause a successful publish does clear a
prior recorded error: the function's first statement assigns the result of
`EnsureQueueExists` (nil on success) to the error field, so `LastError`
is nil after a publish that succeeds. -/
theorem publishMessage_lastError_reflects_outcome
    (ctx : AmqpContext) (q m : String) (dr : Except GoErr Queue)
    (mr : Except GoErr (List Nat)) (pr : Option GoErr) :
    (∀ me, (EnsureQueueExists ctx q dr).2.1 = none → mr = Except.error me →
      (PublishMessage ctx q m dr mr pr).2.1 = some (GoErr.wrap (marshalErrMsg m) me) ∧
      (PublishMessage ctx q m dr mr pr).1.err = some (GoErr.wrap (marshalErrMsg m) me)) ∧
    (∀ body pe, (EnsureQueueExists ctx q dr).2.1 = none → mr = Except.ok body →
      pr = some pe →
      (PublishMessage ctx q m dr mr pr).2.1 = some (GoErr.wrap (publishErrMsg m) pe) ∧
      (PublishMessage ctx q m dr mr pr).1.err = some (GoErr.wrap (publishErrMsg m) pe)) ∧
    (∀ body, (EnsureQueueExists ctx q dr).2.1 = none → mr = Except.ok body → pr = none →
      LastError (PublishMessage ctx q m dr mr pr).1 = none ∧
      (PublishMessage ctx q m dr mr pr).2.1 = none) := by
  refine ⟨?_, ?_, ?_⟩
  · intro me hq hm
    simp [PublishMessage, hq, hm]
  · intro body pe hq hm hp
    simp [PublishMessage, hq, hm, hp]
  · intro body hq hm hp
    simp [PublishMessage, LastError, hq, hm, hp]

/-- Claim C5 witness: the three publish outcomes evaluated concretely; the
success case runs on a context carrying a previously recorded error. -/
theorem publishMessage_lastError_witness :
    ((PublishMessage ctxA "jobs" "msg" (Except.ok { name := "jobs" })
        (Except.error (GoErr.simple "marshal boom")) none).2.1 =
      some (GoErr.wrap (marshalErrMsg "msg") (GoErr.simple "marshal boom")) ∧
     (PublishMessage ctxA "jobs" "msg" (Except.ok { name := "jobs" })
        (Except.error (GoErr.simple "marshal boom")) none).1.err =
      some (GoErr.wrap (marshalErrMsg "msg") (GoErr.simple "marshal boom"))) ∧
    ((PublishMessage ctxA "jobs" "msg" (Except.ok { name := "jobs" })
        (Except.ok [1]) (some (GoErr.simple "pub boom"))).2.1 =
      some (GoErr.wrap (publishErrMsg "msg") (GoErr.simple "pub boom")) ∧
     (PublishMessage ctxA "jobs" "msg" (Except.ok { name := "jobs" })
        (Except.ok [1]) (some (GoErr.simple "pub boom"))).1.err =
      some (GoErr.wrap (publishErrMsg "msg") (GoErr.simple "pub boom"))) ∧
    (LastError (PublishMessage ctxCached "jobs" "msg" (Except.ok { name := "jobs" })
        (Except.ok [1]) none).1 = none ∧
     (PublishMessage ctxCached "jobs" "msg" (Except.ok { name := "jobs" })
        (Except.ok [1]) none).2.1 = none) :=
  ⟨(publishMessage_lastError_reflects_outcome ctxA "jobs" "msg" (Except.ok { name := "jobs" })
      (Except.error (GoErr.simple "marshal boom")) none).1
      (GoErr.simple "marshal boom") (by decide) rfl,
   (publishMessage_lastError_reflects_outcome ctxA "jobs" "msg" (Except.ok { name := "jobs" })
      (Except.ok [1]) (some (GoErr.simple "pub boom"))).2.1
      [1] (GoErr.simple "pub boom") (by decide) rfl rfl,
   (publishMessage_lastError_reflects_outcome ctxCached "jobs" "msg" (Except.ok { name := "jobs" })
      (Except.ok [1]) none).2.2 [1] (by decide) rfl rfl⟩

/-- Claim C5 counterexample: a context with a recorded prior error
publishes successfully to a cached queue, after which `LastError` is nil,
refuting the claim that the prior error is still observable. -/
theorem publishMessage_success_clears_prior_error_cex :
    LastError ctxCached = some (GoErr.simple "previous failure") ∧
    ¬ (LastError (PublishMessage ctxCached "jobs" "msg" (Except.ok { name := "jobs" })
        (Except.ok [1]) none).1 = some (GoErr.simple "previous failure")) := by decide

/-- Claim C6, confirmed.  On a successful `Reset` both registries are
reinitialized to empty together and a fresh channel is held; on any
failure (redial of a closed connection, or channel open) the error is
recorded as the context's last error and returned with neither registry
cleared and no freshly opened channel (the channel field is either left
alone or nil). -/
theorem reset_registries_atomic (ctx : AmqpContext) (env : ResetEnv) :
    ((Reset ctx env).2.1 = none →
      (Reset ctx env).1.queues = [] ∧
      (Reset ctx env).1.deliveryChannels = [] ∧
      (Reset ctx env).1.err = none ∧
      ∃ h, env.chanResult = Except.ok h ∧ (Reset ctx env).1.channel = some h) ∧
    (∀ e, (Reset ctx env).2.1 = some e →
      (Reset ctx env).1.err = some e ∧
      (Reset ctx env).1.queues = ctx.queues ∧
      (Reset ctx env).1.deliveryChannels = ctx.deliveryChannels ∧
      ((Reset ctx env).1.channel = ctx.channel ∨ (Reset ctx env).1.channel = none)) := by
  cases hcc : ctx.connClosed <;>
    rcases hd : env.dialResult with _ | e0 <;>
    rcases hch : env.chanResult with e1 | h1 <;>
    simp [Reset, hcc, hd, hch]

/-- Claim C6 witness: a successful reset on a context with cached state,
and a failing channel open on the same context. -/
theorem reset_registries_atomic_witness :
    ((Reset ctxCached (healthyReset 3)).1.queues = [] ∧
     (Reset ctxCached (healthyReset 3)).1.deliveryChannels = [] ∧
     (Reset ctxCached (healthyReset 3)).1.err = none ∧
     ∃ h, (healthyReset 3).chanResult = Except.ok h ∧
       (Reset ctxCached (healthyReset 3)).1.channel = some h) ∧
    ((Reset ctxCached resetFailEnv).1.err = some (GoErr.simple "open failed") ∧
     (Reset ctxCached resetFailEnv).1.queues = ctxCached.queues ∧
     (Reset ctxCached resetFailEnv).1.deliveryChannels = ctxCached.deliveryChannels ∧
     ((Reset ctxCached resetFailEnv).1.channel = ctxCached.channel ∨
      (Reset ctxCached resetFailEnv).1.channel = none)) :=
  ⟨(reset_registries_atomic ctxCached (healthyReset 3)).1 rfl,
   (reset_registries_atomic ctxCached resetFailEnv).2 (GoErr.simple "open failed") rfl⟩

/-- Claim C7, confirmed.  First conjunct: registration starts with
`Qos(1, 0, false)`; a QoS failure with budget left costs one 3-second
sleep, then a `Reset` (channel reopen), then the retried QoS call, in that
order in the action trace.  Second conjunct: exhausting the ten retries
surfaces the error wrapped with the queue name and consumer identity, and
registration never reaches `Consume`. -/
theorem registerConsumer_qos_retry_policy :
    (∀ (ctx : AmqpContext) (q : String) (e : GoErr) (ch h : Nat), ctx.connClosed = false →
      (registerConsumer (qosFailOnceEnv e ch h) ctx q).qi = 2 ∧
      (registerConsumer (qosFailOnceEnv e ch h) ctx q).ri = 1 ∧
      (registerConsumer (qosFailOnceEnv e ch h) ctx q).sleeps = 3 ∧
      (registerConsumer (qosFailOnceEnv e ch h) ctx q).ctx.err = none ∧
      (registerConsumer (qosFailOnceEnv e ch h) ctx q).trace =
        [Action.qos 1 0 false, Action.sleep 3, Action.chanOpen,
         Action.qos 1 0 false,
         Action.consume q ctx.consumerId false false false false]) ∧
    (∀ (ctx : AmqpContext) (q : String) (e : GoErr) (ch : Nat), ctx.connClosed = false →
      (registerConsumer (qosAlwaysFailEnv e ch) ctx q).qi = 11 ∧
      (registerConsumer (qosAlwaysFailEnv e ch) ctx q).ri = 10 ∧
      (registerConsumer (qosAlwaysFailEnv e ch) ctx q).sleeps = 30 ∧
      (registerConsumer (qosAlwaysFailEnv e ch) ctx q).ci = 0 ∧
      (registerConsumer (qosAlwaysFailEnv e ch) ctx q).ctx.err =
        some (GoErr.wrap (qosErrMsg q ctx.consumerId) e)) := by
  refine ⟨?_, ?_⟩
  · intro ctx q e ch h hcc
    simp [registerConsumer, qosLoop, consumeLoop, doQos, doReset, doSleep, Reset,
          RegState.start, qosFailOnceEnv, healthyReset, is404, mapInsert, mapLookup, hcc]
  · intro ctx q e ch hcc
    exact registerConsumer_qosExhaust_run ctx q e ch hcc

/-- Claim C7 witness: the single-retry and the exhaustion scenario
evaluated on a fresh context and queue `jobs`. -/
theorem registerConsumer_qos_retry_witness :
    ((registerConsumer (qosFailOnceEnv (GoErr.simple "qos boom") 2 5) ctxA "jobs").qi = 2 ∧
     (registerConsumer (qosFailOnceEnv (GoErr.simple "qos boom") 2 5) ctxA "jobs").ri = 1 ∧
     (registerConsumer (qosFailOnceEnv (GoErr.simple "qos boom") 2 5) ctxA "jobs").sleeps = 3 ∧
     (registerConsumer (qosFailOnceEnv (GoErr.simple "qos boom") 2 5) ctxA "jobs").ctx.err
       = none ∧
     (registerConsumer (qosFailOnceEnv (GoErr.simple "qos boom") 2 5) ctxA "jobs").trace =
       [Action.qos 1 0 false, Action.sleep 3, Action.chanOpen,
        Action.qos 1 0 false,
        Action.consume "jobs" ctxA.consumerId false false false false]) ∧
    ((registerConsumer (qosAlwaysFailEnv (GoErr.simple "qos boom") 2) ctxA "jobs").qi = 11 ∧
     (registerConsumer (qosAlwaysFailEnv (GoErr.simple "qos boom") 2) ctxA "jobs").ri = 10 ∧
     (registerConsumer (qosAlwaysFailEnv (GoErr.simple "qos boom") 2) ctxA "jobs").sleeps
       = 30 ∧
     (registerConsumer (qosAlwaysFailEnv (GoErr.simple "qos boom") 2) ctxA "jobs").ci = 0 ∧
     (registerConsumer (qosAlwaysFailEnv (GoErr.simple "qos boom") 2) ctxA "jobs").ctx.err =
       some (GoErr.wrap (qosErrMsg "jobs" ctxA.consumerId) (GoErr.simple "qos boom"))) :=
  ⟨registerConsumer_qos_retry_policy.1 ctxA "jobs" (GoErr.simple "qos boom") 2 5 rfl,
   registerConsumer_qos_retry_policy.2 ctxA "jobs" (GoErr.simple "qos boom") 2 rfl⟩

/-- Claim C8, confirmed.  First conjunct: a delivery with a nil or
zero-length body makes the receive record and return an error naming the
consumer identity together with a nil delivery handle.  Second conjunct: a
decode failure on a non-empty body is recorded as the last error and
returned alongside the raw (non-nil) delivery handle. -/
theorem receiveMessage_malformed_delivery
    (env : RecvEnv) (ctx : AmqpContext) (q : String) (d : Nat)
    (hd : mapLookup ctx.deliveryChannels q = some d) :
    ((env.event = StreamEvent.delivery none ∨ env.event = StreamEvent.delivery (some [])) →
      ReceiveMessage env ctx q =
        { ctx := { ctx with err := some (GoErr.simple (emptyBodyMsg ctx.consumerId)) },
          delivery := none,
          retErr := some (GoErr.simple (emptyBodyMsg ctx.consumerId)),
          registered := false, trace := [] }) ∧
    (∀ bs e, bs ≠ [] → env.event = StreamEvent.delivery (some bs) →
      env.unmarshalRes = some e →
      ReceiveMessage env ctx q =
        { ctx := { ctx with err := some e },
          delivery := some { body := some bs }, retErr := some e,
          registered := false, trace := [] }) := by
  refine ⟨?_, ?_⟩
  · intro hev
    rcases hev with hev | hev <;> simp [ReceiveMessage, hd, hev, RegState.start]
  · intro bs e hbs hev hun
    simp [ReceiveMessage, hd, hev, hun, RegState.start, hbs]

/-- Claim C8 witness: an empty-body delivery and a body that fails to
decode, both on a context with a cached stream for queue `jobs`. -/
theorem receiveMessage_malformed_delivery_witness :
    ReceiveMessage emptyBodyEnv ctxStream "jobs" =
      { ctx := { ctxStream with
          err := some (GoErr.simple (emptyBodyMsg ctxStream.consumerId)) },
        delivery := none,
        retErr := some (GoErr.simple (emptyBodyMsg ctxStream.consumerId)),
        registered := false, trace := [] } ∧
    ReceiveMessage badJsonEnv ctxStream "jobs" =
      { ctx := { ctxStream with err := some (GoErr.simple "invalid character") },
        delivery := some { body := some [5] },
        retErr := some (GoErr.simple "invalid character"),
        registered := false, trace := [] } :=
  ⟨(receiveMessage_malformed_delivery emptyBodyEnv ctxStream "jobs" 7 (by decide)).1
      (Or.inr rfl),
   (receiveMessage_malformed_delivery badJsonEnv ctxStream "jobs" 7 (by decide)).2
      [5] (GoErr.simple "invalid character") (by decide) rfl rfl⟩

/-- Claim C9, confirmed.  When the dial succeeds, `GetAmqpContext` always
returns a non-nil context, discarding the result of `Reset`; if the
channel open inside `Reset` fails, the returned context records the
failure as its last error and holds no channel. -/
theorem getAmqpContext_discards_reset_failure (url cid : String) (env : ResetEnv) :
    (GetAmqpContext url cid none env).1.isSome = true ∧
    (∀ e, env.chanResult = Except.error e →
      (GetAmqpContext url cid none env).1 =
        some { err := some e, channel := none, connClosed := false,
               amqpConnectionURL := url, consumerId := cid,
               queues := [], deliveryChannels := [] }) := by
  refine ⟨?_, ?_⟩
  · simp [GetAmqpContext]
  · intro e he
    simp [GetAmqpContext, Reset, he]

/-- Claim C9 witness: a successful dial with a failing channel open still
yields a context, whose last error holds the failure. -/
theorem getAmqpContext_discards_reset_failure_witness :
    (GetAmqpContext "amqp://broker" "worker-1" none resetFailEnv).1.isSome = true ∧
    (GetAmqpContext "amqp://broker" "worker-1" none resetFailEnv).1 =
      some { err := some (GoErr.simple "open failed"), channel := none,
             connClosed := false, amqpConnectionURL := "amqp://broker",
             consumerId := "worker-1", queues := [], deliveryChannels := [] } :=
  ⟨(getAmqpContext_discards_reset_failure "amqp://broker" "worker-1" resetFailEnv).1,
   (getAmqpContext_discards_reset_failure "amqp://broker" "worker-1" resetFailEnv).2
      (GoErr.simple "open failed") rfl⟩

/-- Claim C10, confirmed.  `ReceiveMessage` and `ReceiveProtoMessage`,
each transcribed separately from its Go function with the body-decoding
step abstracted into the oracle `env.unmarshalRes`, agree on every context
state, queue and stream behaviour: they are the same function of the
decoding outcome, so they differ only in which decoder (JSON versus
protocol-buffer JSON) produces that outcome. -/
theorem receiveMessage_eq_receiveProtoMessage
    (env : RecvEnv) (ctx : AmqpContext) (q : String) :
    ReceiveMessage env ctx q = ReceiveProtoMessage env ctx q := rfl

end AmqpUtil
